import Mathlib

/-!
A verification development for the Rating Aggregation & Moderation Engine of the
college resource-sharing backend.  The definitions below shallowly embed the
JavaScript source: the `Rating` mongoose model (its fields, schema defaults, and
the instance methods `markHelpful` and `reportRating`) and the rating-submission
pipeline of the ratings router (`router.post('/')`).  Mongo ObjectId values are
modelled as natural numbers (the code only ever compares them by `toString()`
equality); JS numbers holding rating values and reputation are modelled as `Int`;
the one-decimal average is modelled as an exact rational.  Timestamps
(`createdAt` entries) are omitted: no property below concerns them.
-/

namespace RatingEngine

abbrev UserId := Nat

abbrev ResourceId := Nat

/-- One entry of the `reports` array of the Rating schema:
`{ user, reason, createdAt }` (timestamp omitted). -/
structure Report where
  user : UserId
  reason : String
deriving DecidableEq, Repr

/-- The Rating document of `models/Rating.js`.  `rating` is the 1-5 value,
`isHelpful` holds the voter ids of the helpful-vote subdocuments (their
timestamps are omitted), `helpfulCount` is the cached vote counter, and
`isActive` is the moderation flag (schema default `true`). -/
structure Rating where
  user : UserId
  resource : ResourceId
  rating : Int
  feedback : String
  isHelpful : List UserId
  helpfulCount : Int
  reports : List Report
  isActive : Bool
deriving DecidableEq, Repr

/-- A Rating document as freshly constructed by `new Rating({user, resource,
rating, feedback})`: schema defaults give `isHelpful = []`, `helpfulCount = 0`,
`reports = []`, `isActive = true`. -/
def mkRating (u : UserId) (res : ResourceId) (v : Int) (fb : String) : Rating :=
  { user := u, resource := res, rating := v, feedback := fb
  , isHelpful := [], helpfulCount := 0, reports := [], isActive := true }

/-- `ratingSchema.methods.markHelpful(userId)`: if the voter already appears in
`isHelpful`, remove every entry of that voter and decrement `helpfulCount` with
floor 0 (`Math.max(0, this.helpfulCount - 1)`); otherwise append the voter and
increment `helpfulCount`. -/
def markHelpful (r : Rating) (userId : UserId) : Rating :=
  if userId ∈ r.isHelpful then
    { r with isHelpful := r.isHelpful.filter (fun h => decide (h ≠ userId))
           , helpfulCount := max 0 (r.helpfulCount - 1) }
  else
    { r with isHelpful := r.isHelpful ++ [userId]
           , helpfulCount := r.helpfulCount + 1 }

/-- JS `reason || 'Inappropriate content'`: an absent or empty reason string is
replaced by the default. -/
def reasonOrDefault (reason : Option String) : String :=
  match reason with
  | none => "Inappropriate content"
  | some s => if s = "" then "Inappropriate content" else s

/-- `ratingSchema.methods.reportRating(userId, reason)`: a repeat report from a
user already present in `reports` leaves the document unchanged; otherwise the
report is appended and, if the report count has reached 3, `isActive` is set to
`false`. -/
def reportRating (r : Rating) (userId : UserId) (reason : Option String) : Rating :=
  if userId ∈ r.reports.map Report.user then r
  else if 3 ≤ (r.reports ++ [Report.mk userId (reasonOrDefault reason)]).length then
    { r with reports := r.reports ++ [Report.mk userId (reasonOrDefault reason)]
           , isActive := false }
  else
    { r with reports := r.reports ++ [Report.mk userId (reasonOrDefault reason)] }

/-- One entry of the resource's embedded `ratings` array, as written by the
ratings router (`{ user, rating, feedback, createdAt }`, timestamp omitted). -/
structure EmbeddedRating where
  user : UserId
  rating : Int
  feedback : String
deriving DecidableEq, Repr

/-- The fields of the Resource document that the rating subsystem touches:
its author, soft-delete flag, embedded `ratings` array, and the derived summary
pair `averageRating` / `totalRatings`. -/
structure Resource where
  id : ResourceId
  author : UserId
  isActive : Bool
  ratings : List EmbeddedRating
  averageRating : Rat
  totalRatings : Nat
deriving DecidableEq, Repr

/-- The persistent state the engine manipulates: the Rating collection, the
Resource collection, and each user's reputation counter. -/
structure Store where
  ratings : List Rating
  resources : List Resource
  reputation : UserId → Int

/-- Update the first element satisfying `p` (Mongo updates a single document
selected by its query; document keys are unique in the collections at hand). -/
def updateFirst (p : α → Bool) (f : α → α) : List α → List α
  | [] => []
  | x :: xs => if p x then f x :: xs else x :: updateFirst p f xs

/-- `Rating.findOne({user, resource})`. -/
def findRating (ratings : List Rating) (u : UserId) (res : ResourceId) : Option Rating :=
  ratings.find? (fun r => decide (r.user = u ∧ r.resource = res))

/-- `Resource.findById(id)`. -/
def findResource (resources : List Resource) (id : ResourceId) : Option Resource :=
  resources.find? (fun r => decide (r.id = id))

/-- The values of the active Rating documents of one resource, in collection
order. -/
def activeValues (ratings : List Rating) (res : ResourceId) : List Int :=
  (ratings.filter (fun r => decide (r.resource = res ∧ r.isActive = true))).map Rating.rating

/-- JS `Math.round`: round half toward positive infinity. -/
def jsRound (q : Rat) : Int := ⌊q + 1/2⌋

/-- Round to one decimal place: `Math.round(x * 10) / 10`. -/
def round1 (q : Rat) : Rat := (jsRound (q * 10) : Int) / 10

/-- `Math.round((sum / len) * 10)` computed purely on integers, so that
concrete scenarios evaluate inside the kernel: for `len > 0`,
`(sum / len) * 10 + 1/2 = (20 * sum + len) / (2 * len)`, and taking the
integer floor of that fraction is integer floor division
(`theorem roundTenths_eq` below proves the agreement with `jsRound`). -/
def roundTenths (s : Int) (n : Nat) : Int := (20 * s + (n : Int)) / ((2 * n : Nat) : Int)

/-- Modelled from the spec: the body of `Resource.calculateAverageRating`
(the Resource model file is not under src/; only its call sites in the ratings
routers are).  Per spec section 4.2, `recomputeSummary` takes the active rating
values of the resource and yields their arithmetic mean rounded to one decimal
place together with their count, and `(0, 0)` when there are none.  The
rounded mean is built as `Rat.divInt (tenths) 10`; `theorem
summaryOfValues_avg` below shows it equals `round1` of the mean. -/
def summaryOfValues (vs : List Int) : Rat × Nat :=
  if vs.length = 0 then (0, 0)
  else (Rat.divInt (roundTenths vs.sum vs.length) 10, vs.length)

/-- Modelled from the spec: the summary recomputation applied to the current
Rating collection (spec section 4.2: fetch all Rating records of the resource,
filter to `isActive`, average and count). -/
def recomputeSummary (ratings : List Rating) (res : ResourceId) : Rat × Nat :=
  summaryOfValues (activeValues ratings res)

/-- The error outcomes of the ratings router `router.post('/')`:
`missingFields` is the 400 response `'Resource ID and rating are required'`
(JS truthiness: a rating of 0 also trips it), `invalidValue` is the 400
response `'Rating must be between 1 and 5'`, `resourceNotFound` the 404, and
`selfRating` the 400 `'You cannot rate your own resource'`. -/
inductive SubmitError
  | missingFields
  | invalidValue
  | resourceNotFound
  | selfRating
deriving DecidableEq, Repr

/-- `existingRating.rating = rating; existingRating.feedback = feedback || '';
await existingRating.save()`: overwrite `value`/`feedback` of the unique
document for `(user, resource)` in place. -/
def overwriteDoc (s : Store) (u : UserId) (resId : ResourceId) (v : Int) (fb : String) : Store :=
  { s with ratings :=
      (updateFirst (fun r => decide (r.user = u ∧ r.resource = resId))
        (fun r => { r with rating := v, feedback := fb }) s.ratings) }

/-- `new Rating({...}).save()` followed by the rater-reputation award
`User.findByIdAndUpdate(req.user._id, { $inc: { reputation: 2 } })` of the
create branch. -/
def createDoc (s : Store) (u : UserId) (resId : ResourceId) (v : Int) (fb : String) : Store :=
  { s with ratings := s.ratings ++ [mkRating u resId v fb]
         , reputation := fun x => if x = u then s.reputation x + 2 else s.reputation x }

/-- Positional update of the resource's embedded `ratings` array:
`Resource.findOneAndUpdate({_id, 'ratings.user': user}, {$set: {'ratings.$....'}})`
rewrites the first embedded entry of that user. -/
def setEmbedded (u : UserId) (v : Int) (fb : String) (l : List EmbeddedRating) : List EmbeddedRating :=
  updateFirst (fun e => decide (e.user = u)) (fun e => { e with rating := v, feedback := fb }) l

/-- The embedded-array update of the existing-rating branch, applied to the
resource selected by id. -/
def setEmbeddedOnResource (s : Store) (u : UserId) (resId : ResourceId) (v : Int) (fb : String) : Store :=
  { s with resources :=
      (updateFirst (fun r => decide (r.id = resId))
        (fun r => { r with ratings := setEmbedded u v fb r.ratings }) s.resources) }

/-- `Resource.findByIdAndUpdate(resourceId, { $push: { ratings: {...} } })`
of the create branch. -/
def pushEmbeddedOnResource (s : Store) (u : UserId) (resId : ResourceId) (v : Int) (fb : String) : Store :=
  { s with resources :=
      (updateFirst (fun r => decide (r.id = resId))
        (fun r => { r with ratings := r.ratings ++ [⟨u, v, fb⟩] }) s.resources) }

/-- `const updatedResource = await Resource.findById(resourceId); await
updatedResource.calculateAverageRating()`: recompute the summary from the
current rating set and persist it on the resource (the recomputation itself is
spec-modelled, see `recomputeSummary`). -/
def writeSummary (s : Store) (resId : ResourceId) : Store :=
  { s with resources :=
      (updateFirst (fun r => decide (r.id = resId))
        (fun r => { r with averageRating := (recomputeSummary s.ratings resId).1
                         , totalRatings := (recomputeSummary s.ratings resId).2 }) s.resources) }

/-- The author-reputation award run on every successful submission:
`User.findByIdAndUpdate(resource.author, { $inc: { reputation: rating > 3 ? 3 : 1 } })`. -/
def awardAuthor (s : Store) (author : UserId) (v : Int) : Store :=
  { s with reputation := fun x =>
      if x = author then s.reputation x + (if 3 < v then 3 else 1) else s.reputation x }

/-- The whole state written by the existing-rating branch of `router.post('/')`. -/
def updatePathResult (s : Store) (u : UserId) (resId : ResourceId) (v : Int) (fb : String)
    (author : UserId) : Store :=
  awardAuthor (writeSummary (setEmbeddedOnResource (overwriteDoc s u resId v fb) u resId v fb) resId)
    author v

/-- The whole state written by the new-rating branch of `router.post('/')`. -/
def createPathResult (s : Store) (u : UserId) (resId : ResourceId) (v : Int) (fb : String)
    (author : UserId) : Store :=
  awardAuthor (writeSummary (pushEmbeddedOnResource (createDoc s u resId v fb) u resId v fb) resId)
    author v

/-- `router.post('/')` of the ratings router: reject a falsy rating
(`!rating`, i.e. 0 in this model; the `!resourceId` half of that check is
about an absent body field and is outside the model), reject a value outside
[1,5], look up the resource (404 when absent or soft-deleted), reject
self-rating, then upsert the Rating document, mirror it into the embedded
`ratings` array, recompute the summary, and award the author's reputation.
On an error path nothing has been persisted and the store is returned
unchanged. -/
def submitRating (s : Store) (actingUser : UserId) (resourceId : ResourceId)
    (ratingVal : Int) (feedback : Option String) : Option SubmitError × Store :=
  if ratingVal = 0 then (some .missingFields, s)
  else if ratingVal < 1 ∨ 5 < ratingVal then (some .invalidValue, s)
  else
    match findResource s.resources resourceId with
    | none => (some .resourceNotFound, s)
    | some res =>
      if res.isActive = false then (some .resourceNotFound, s)
      else if res.author = actingUser then (some .selfRating, s)
      else
        match findRating s.ratings actingUser resourceId with
        | some _ => (none, updatePathResult s actingUser resourceId ratingVal (feedback.getD "") res.author)
        | none => (none, createPathResult s actingUser resourceId ratingVal (feedback.getD "") res.author)

/-- The store-level helpful-vote toggle: apply `markHelpful` to the Rating
document of the owner/resource pair (documents are keyed by the unique
`{user: 1, resource: 1}` index) and save it; nothing else is written. -/
def markHelpfulOp (s : Store) (owner : UserId) (resId : ResourceId) (voter : UserId) : Store :=
  { s with ratings :=
      (updateFirst (fun r => decide (r.user = owner ∧ r.resource = resId))
        (fun r => markHelpful r voter) s.ratings) }

/-- The store-level report operation: apply `reportRating` to the Rating
document of the owner/resource pair and save it; `reportRating` ends in
`this.save()` only, so no other collection is written. -/
def reportOp (s : Store) (owner : UserId) (resId : ResourceId) (reporter : UserId)
    (reason : Option String) : Store :=
  { s with ratings :=
      (updateFirst (fun r => decide (r.user = owner ∧ r.resource = resId))
        (fun r => reportRating r reporter reason) s.ratings) }

/-- The record-level mutations the engine can apply to an existing Rating
document: the helpful-vote toggle, a report, and the value/feedback overwrite
of the existing-rating branch of the upsert. -/
inductive RatingOp
  | toggleHelpful (voter : UserId)
  | report (reporter : UserId) (reason : Option String)
  | overwrite (v : Int) (fb : String)
deriving Repr

/-- Apply one record-level operation. -/
def applyOp (r : Rating) : RatingOp → Rating
  | .toggleHelpful voter => markHelpful r voter
  | .report u reason => reportRating r u reason
  | .overwrite v fb => { r with rating := v, feedback := fb }

/-- Apply a sequence of record-level operations, oldest first. -/
def applyOps (r : Rating) : List RatingOp → Rating
  | [] => r
  | op :: ops => applyOps (applyOp r op) ops

/-! General facts about `updateFirst` and the collection lookups. -/

theorem updateFirst_length (p : α → Bool) (f : α → α) (l : List α) :
    (updateFirst p f l).length = l.length := by
  induction l with
  | nil => rfl
  | cons x xs ih =>
    by_cases hx : p x = true
    · simp [updateFirst, hx]
    · simp [updateFirst, hx, ih]

theorem find?_updateFirst (p : α → Bool) (f : α → α)
    (hf : ∀ x, p x = true → p (f x) = true) (l : List α) :
    (updateFirst p f l).find? p = (l.find? p).map f := by
  induction l with
  | nil => rfl
  | cons x xs ih =>
    by_cases hx : p x = true
    · simp [updateFirst, hx, List.find?_cons_of_pos _ hx, List.find?_cons_of_pos _ (hf x hx)]
    · have h1 : updateFirst p f (x :: xs) = x :: updateFirst p f xs := by
        simp [updateFirst, hx]
      rw [h1, List.find?_cons_of_neg _ hx, List.find?_cons_of_neg _ hx, ih]

theorem find?_append_of_none (p : α → Bool) {l₁ : List α} (h : l₁.find? p = none)
    (l₂ : List α) : (l₁ ++ l₂).find? p = l₂.find? p := by
  induction l₁ with
  | nil => rfl
  | cons x xs ih =>
    have hx : p x = false := by
      simpa using List.find?_eq_none.mp h x (List.mem_cons_self x xs)
    have hxs : xs.find? p = none := by
      rw [List.find?_eq_none] at h ⊢
      exact fun a ha => h a (List.mem_cons_of_mem x ha)
    rw [List.cons_append, List.find?_cons_of_neg _ (by simp [hx]), ih hxs]

/-! Projection facts of the submission phases. -/

theorem overwriteDoc_resources (s : Store) (u : UserId) (resId : ResourceId) (v : Int)
    (fb : String) : (overwriteDoc s u resId v fb).resources = s.resources := rfl

theorem overwriteDoc_reputation (s : Store) (u : UserId) (resId : ResourceId) (v : Int)
    (fb : String) : (overwriteDoc s u resId v fb).reputation = s.reputation := rfl

theorem createDoc_resources (s : Store) (u : UserId) (resId : ResourceId) (v : Int)
    (fb : String) : (createDoc s u resId v fb).resources = s.resources := rfl

theorem setEmbeddedOnResource_ratings (s : Store) (u : UserId) (resId : ResourceId) (v : Int)
    (fb : String) : (setEmbeddedOnResource s u resId v fb).ratings = s.ratings := rfl

theorem setEmbeddedOnResource_reputation (s : Store) (u : UserId) (resId : ResourceId) (v : Int)
    (fb : String) : (setEmbeddedOnResource s u resId v fb).reputation = s.reputation := rfl

theorem pushEmbeddedOnResource_ratings (s : Store) (u : UserId) (resId : ResourceId) (v : Int)
    (fb : String) : (pushEmbeddedOnResource s u resId v fb).ratings = s.ratings := rfl

theorem pushEmbeddedOnResource_reputation (s : Store) (u : UserId) (resId : ResourceId) (v : Int)
    (fb : String) : (pushEmbeddedOnResource s u resId v fb).reputation = s.reputation := rfl

theorem writeSummary_ratings (s : Store) (resId : ResourceId) :
    (writeSummary s resId).ratings = s.ratings := rfl

theorem writeSummary_reputation (s : Store) (resId : ResourceId) :
    (writeSummary s resId).reputation = s.reputation := rfl

theorem awardAuthor_ratings (s : Store) (a : UserId) (v : Int) :
    (awardAuthor s a v).ratings = s.ratings := rfl

theorem awardAuthor_resources (s : Store) (a : UserId) (v : Int) :
    (awardAuthor s a v).resources = s.resources := rfl

theorem reportOp_resources (s : Store) (owner : UserId) (resId : ResourceId)
    (reporter : UserId) (reason : Option String) :
    (reportOp s owner resId reporter reason).resources = s.resources := rfl

theorem markHelpfulOp_resources (s : Store) (owner : UserId) (resId : ResourceId)
    (voter : UserId) : (markHelpfulOp s owner resId voter).resources = s.resources := rfl

/-- The resource found after a `writeSummary` is the resource found before it,
with its summary fields replaced by the recomputation over the pre-write
rating collection (which `writeSummary` does not touch). -/
theorem findResource_writeSummary (s : Store) (resId : ResourceId) :
    findResource (writeSummary s resId).resources resId
      = (findResource s.resources resId).map
          (fun r => { r with averageRating := (recomputeSummary s.ratings resId).1
                           , totalRatings := (recomputeSummary s.ratings resId).2 }) := by
  unfold writeSummary findResource
  exact find?_updateFirst _ _ (fun x hx => by simpa using hx) s.resources

theorem findResource_setEmbeddedOnResource (s : Store) (u : UserId) (resId : ResourceId)
    (v : Int) (fb : String) :
    findResource (setEmbeddedOnResource s u resId v fb).resources resId
      = (findResource s.resources resId).map
          (fun r => { r with ratings := setEmbedded u v fb r.ratings }) := by
  unfold setEmbeddedOnResource findResource
  exact find?_updateFirst _ _ (fun x hx => by simpa using hx) s.resources

theorem findResource_pushEmbeddedOnResource (s : Store) (u : UserId) (resId : ResourceId)
    (v : Int) (fb : String) :
    findResource (pushEmbeddedOnResource s u resId v fb).resources resId
      = (findResource s.resources resId).map
          (fun r => { r with ratings := r.ratings ++ [⟨u, v, fb⟩] }) := by
  unfold pushEmbeddedOnResource findResource
  exact find?_updateFirst _ _ (fun x hx => by simpa using hx) s.resources

/-- The integer-tenths computation agrees with `Math.round` of ten times the
mean. -/
theorem roundTenths_eq (s : Int) (n : Nat) (hn : n ≠ 0) :
    roundTenths s n = jsRound (((s : Rat) / (n : Rat)) * 10) := by
  unfold roundTenths jsRound
  have hn' : ((n : Rat)) ≠ 0 := by exact_mod_cast hn
  have hq : ((s : Rat) / (n : Rat)) * 10 + 1/2
      = (((20 * s + (n : Int) : Int) : Rat)) / (((2 * n : Nat) : Rat)) := by
    push_cast
    field_simp
    ring
  rw [hq, Rat.floor_intCast_div_natCast]

/-- The average component of the recomputation on a nonempty value list is
the mean rounded to one decimal place. -/
theorem summaryOfValues_avg (vs : List Int) (h : vs.length ≠ 0) :
    (summaryOfValues vs).1 = round1 (((vs.sum : Int) : Rat) / (vs.length : Rat)) := by
  unfold summaryOfValues round1
  rw [if_neg h]
  show Rat.divInt (roundTenths vs.sum vs.length) 10 = _
  rw [Rat.divInt_eq_div, roundTenths_eq _ _ h]
  norm_num

/-- The count component of the recomputation is always the active count. -/
theorem recomputeSummary_snd (ratings : List Rating) (res : ResourceId) :
    (recomputeSummary ratings res).2 = (activeValues ratings res).length := by
  unfold recomputeSummary summaryOfValues
  by_cases h : (activeValues ratings res).length = 0
  · simp [h]
  · simp [h]

/-- Unfolding `activeValues` one document at a time. -/
theorem activeValues_cons (x : Rating) (l : List Rating) (res : ResourceId) :
    activeValues (x :: l) res
      = if x.resource = res ∧ x.isActive = true
        then x.rating :: activeValues l res else activeValues l res := by
  unfold activeValues
  rw [List.filter_cons]
  by_cases hc : x.resource = res ∧ x.isActive = true
  · simp [hc]
  · simp [hc]

/-- Updating one document with a function that preserves its resource id and
its `isActive` flag does not change how many active values the resource has. -/
theorem activeValues_length_updateFirst (p : Rating → Bool) (f : Rating → Rating)
    (hf : ∀ x, (f x).resource = x.resource ∧ (f x).isActive = x.isActive)
    (l : List Rating) (res : ResourceId) :
    (activeValues (updateFirst p f l) res).length = (activeValues l res).length := by
  induction l with
  | nil => rfl
  | cons x xs ih =>
    by_cases hx : p x = true
    · have h1 : updateFirst p f (x :: xs) = f x :: xs := by simp [updateFirst, hx]
      rw [h1, activeValues_cons, activeValues_cons, (hf x).1, (hf x).2]
      by_cases hc : x.resource = res ∧ x.isActive = true
      · simp [hc]
      · simp [hc]
    · have h1 : updateFirst p f (x :: xs) = x :: updateFirst p f xs := by
        simp [updateFirst, hx]
      rw [h1, activeValues_cons, activeValues_cons]
      by_cases hc : x.resource = res ∧ x.isActive = true
      · simp [hc, ih]
      · simp [hc, ih]

/-- Inversion of a successful submission: the input survived the guards (the
resource was found, is active, and is not the acting user's own), and the
resulting store is the update-path or create-path write according to whether a
Rating document for `(user, resource)` already existed. -/
theorem submit_inv {s : Store} {u : UserId} {resId : ResourceId} {v : Int}
    {fb : Option String} {s' : Store}
    (h : submitRating s u resId v fb = (none, s')) :
    ∃ res, findResource s.resources resId = some res ∧ res.isActive = true ∧
      res.author ≠ u ∧
      ((findRating s.ratings u resId = none ∧
          s' = createPathResult s u resId v (fb.getD "") res.author) ∨
       ((findRating s.ratings u resId).isSome = true ∧
          s' = updatePathResult s u resId v (fb.getD "") res.author)) := by
  unfold submitRating at h
  split at h
  · simp at h
  split at h
  · simp at h
  split at h
  · simp at h
  rename_i res heq
  split at h
  · simp at h
  rename_i hactive
  split at h
  · simp at h
  rename_i hauthor
  refine ⟨res, heq, ?_, ?_, ?_⟩
  · simpa using hactive
  · exact hauthor
  · split at h
    · rename_i r0 heq2
      right
      injection h with h1 h2
      exact ⟨by simp [heq2], h2.symm⟩
    · rename_i heq2
      left
      injection h with h1 h2
      exact ⟨heq2, h2.symm⟩

/-- After every successful submission the persisted summary of the rated
resource equals the recomputation over the resulting Rating collection: the
recompute step runs synchronously at the end of the upsert. -/
theorem submit_success_consistent {s : Store} {u : UserId} {resId : ResourceId} {v : Int}
    {fb : Option String} {s' : Store} {res' : Resource}
    (h : submitRating s u resId v fb = (none, s'))
    (hres2 : findResource s'.resources resId = some res') :
    res'.averageRating = (recomputeSummary s'.ratings resId).1 ∧
    res'.totalRatings = (recomputeSummary s'.ratings resId).2 := by
  obtain ⟨res, heq, -, -, hpath⟩ := submit_inv h
  rcases hpath with ⟨-, rfl⟩ | ⟨-, rfl⟩
  · unfold createPathResult at hres2 ⊢
    rw [awardAuthor_resources, findResource_writeSummary, findResource_pushEmbeddedOnResource,
      show (createDoc s u resId v (fb.getD "")).resources = s.resources from rfl, heq] at hres2
    simp only [Option.map_some'] at hres2
    have h3 := Option.some.inj hres2
    refine ⟨?_, ?_⟩ <;> (rw [← h3]; rfl)
  · unfold updatePathResult at hres2 ⊢
    rw [awardAuthor_resources, findResource_writeSummary, findResource_setEmbeddedOnResource,
      overwriteDoc_resources, heq] at hres2
    simp only [Option.map_some'] at hres2
    have h3 := Option.some.inj hres2
    refine ⟨?_, ?_⟩ <;> (rw [← h3]; rfl)

/-- Claim C1: for every finite multiset of active ratings on a resource, after
a successful rating submission the resource's summary satisfies
`averageRating = round(mean(v1..vn), 1)` and `totalRatings = n`, and for the
empty active set it satisfies `averageRating = 0` and `totalRatings = 0`. -/
theorem claim_C1 (s s' : Store) (u : UserId) (resId : ResourceId) (v : Int)
    (fb : Option String) (res' : Resource)
    (hrun : submitRating s u resId v fb = (none, s'))
    (hres : findResource s'.resources resId = some res') :
    (activeValues s'.ratings resId = [] →
      res'.averageRating = 0 ∧ res'.totalRatings = 0) ∧
    (activeValues s'.ratings resId ≠ [] →
      res'.averageRating
          = round1 ((((activeValues s'.ratings resId).sum : Int) : Rat)
              / ((activeValues s'.ratings resId).length : Rat)) ∧
      res'.totalRatings = (activeValues s'.ratings resId).length) := by
  obtain ⟨havg, htot⟩ := submit_success_consistent hrun hres
  constructor
  · intro hemp
    unfold recomputeSummary at havg htot
    rw [hemp] at havg htot
    simp [summaryOfValues] at havg htot
    exact ⟨havg, htot⟩
  · intro hne
    have hlen : (activeValues s'.ratings resId).length ≠ 0 := by
      simpa [List.length_eq_zero] using hne
    refine ⟨?_, ?_⟩
    · rw [havg]
      unfold recomputeSummary
      exact summaryOfValues_avg _ hlen
    · rw [htot, recomputeSummary_snd]

/-! Concrete stores used by the closed scenarios below. -/

/-- A resource (id 1, author 0) with no ratings yet. -/
def sampleResource : Resource :=
  { id := 1, author := 0, isActive := true, ratings := [], averageRating := 0, totalRatings := 0 }

/-- A store holding `sampleResource` and an empty Rating collection. -/
def sampleStore : Store :=
  { ratings := [], resources := [sampleResource], reputation := fun _ => 0 }

/-- The state of `sampleResource` after user 2 submits a first rating of 4. -/
def sampleResourceAfter : Resource :=
  { id := 1, author := 0, isActive := true, ratings := [⟨2, 4, ""⟩]
  , averageRating := 4, totalRatings := 1 }

/-- Witness for claim C1: user 2 submits a rating of 4 into the empty store;
the persisted summary is the rounded mean of the singleton active set. -/
theorem claim_C1_witness :
    (activeValues (submitRating sampleStore 2 1 4 none).2.ratings 1 = [] →
      sampleResourceAfter.averageRating = 0 ∧ sampleResourceAfter.totalRatings = 0) ∧
    (activeValues (submitRating sampleStore 2 1 4 none).2.ratings 1 ≠ [] →
      sampleResourceAfter.averageRating
          = round1 ((((activeValues (submitRating sampleStore 2 1 4 none).2.ratings 1).sum : Int) : Rat)
              / ((activeValues (submitRating sampleStore 2 1 4 none).2.ratings 1).length : Rat)) ∧
      sampleResourceAfter.totalRatings
          = (activeValues (submitRating sampleStore 2 1 4 none).2.ratings 1).length) :=
  claim_C1 sampleStore (submitRating sampleStore 2 1 4 none).2 2 1 4 none
    sampleResourceAfter rfl rfl

/-- A rating of 5 for resource 1 by user 1, unreported. -/
def ratingFive : Rating :=
  { user := 1, resource := 1, rating := 5, feedback := "", isHelpful := []
  , helpfulCount := 0, reports := [], isActive := true }

/-- A rating of 3 for resource 1 by user 2, already reported by users 10 and
11 (one report short of the auto-hide threshold). -/
def ratingThree : Rating :=
  { user := 2, resource := 1, rating := 3, feedback := "", isHelpful := []
  , helpfulCount := 0, reports := [⟨10, "spam"⟩, ⟨11, "spam"⟩], isActive := true }

/-- A rating of 4 for resource 1 by user 3, unreported. -/
def ratingFour : Rating :=
  { user := 3, resource := 1, rating := 4, feedback := "", isHelpful := []
  , helpfulCount := 0, reports := [], isActive := true }

/-- Resource 1 with the three embedded ratings and a summary consistent with
the active set `[5, 3, 4]`: average 4.0, count 3. -/
def resourceC2 : Resource :=
  { id := 1, author := 0, isActive := true
  , ratings := [⟨1, 5, ""⟩, ⟨2, 3, ""⟩, ⟨3, 4, ""⟩]
  , averageRating := 4, totalRatings := 3 }

/-- The store for the auto-hide scenario. -/
def storeC2 : Store :=
  { ratings := [ratingFive, ratingThree, ratingFour], resources := [resourceC2]
  , reputation := fun _ => 0 }

/-- Counterexample to claim C2: in a store whose summary is consistent with
the active set, the report by user 12 is the third distinct report on the
rating of value 3 and flips its `isActive` to false, yet `reportRating` only
saves the Rating document — no summary recomputation is invoked — so the
persisted summary `(4, 3)` no longer matches the recomputation `(4.5, 2)`
over the remaining active set `[5, 4]`. -/
theorem claim_C2_counterexample :
    recomputeSummary storeC2.ratings 1 = (4, 3) ∧
    (findRating (reportOp storeC2 2 1 12 none).ratings 2 1).map Rating.isActive
      = some false ∧
    (findResource (reportOp storeC2 2 1 12 none).resources 1).map
        (fun r => (r.averageRating, r.totalRatings)) = some (4, 3) ∧
    recomputeSummary (reportOp storeC2 2 1 12 none).ratings 1 = (Rat.divInt 9 2, 2) ∧
    ((4 : Rat), (3 : Nat)) ≠ ((Rat.divInt 9 2 : Rat), (2 : Nat)) := by
  refine ⟨by decide, by decide, by decide, by decide, by decide⟩

/-- Claim C2 (amended): the summary recomputation is invoked synchronously
after every successful `upsertRating`, so the summary then matches the active
set; but neither a report — including the one whose third distinct reporter
flips `isActive` to false — nor a helpful-vote toggle performs any
recomputation: both write only the Rating document and leave the Resource
collection untouched. -/
theorem claim_C2_amended (s s' : Store) (u owner voter reporter : UserId)
    (resId : ResourceId) (v : Int) (fb reason : Option String) (res' : Resource)
    (hrun : submitRating s u resId v fb = (none, s'))
    (hres : findResource s'.resources resId = some res') :
    (res'.averageRating, res'.totalRatings) = recomputeSummary s'.ratings resId ∧
    (reportOp s owner resId reporter reason).resources = s.resources ∧
    (markHelpfulOp s owner resId voter).resources = s.resources := by
  obtain ⟨h1, h2⟩ := submit_success_consistent hrun hres
  exact ⟨by rw [h1, h2], rfl, rfl⟩

/-- Witness for claim C2 (amended) at the concrete first-submission scenario. -/
theorem claim_C2_witness :
    ((sampleResourceAfter.averageRating, sampleResourceAfter.totalRatings)
        = recomputeSummary (submitRating sampleStore 2 1 4 none).2.ratings 1) ∧
    (reportOp sampleStore 9 1 12 none).resources = sampleStore.resources ∧
    (markHelpfulOp sampleStore 9 1 13).resources = sampleStore.resources :=
  claim_C2_amended sampleStore (submitRating sampleStore 2 1 4 none).2 2 9 13 12 1 4
    none none sampleResourceAfter rfl rfl

/-- Overwriting the value/feedback of the `(user, resource)` document rewrites
exactly that document in place. -/
theorem findRating_overwriteDoc (s : Store) (u : UserId) (resId : ResourceId) (v : Int)
    (fb : String) :
    findRating (overwriteDoc s u resId v fb).ratings u resId
      = (findRating s.ratings u resId).map (fun r => { r with rating := v, feedback := fb }) := by
  unfold overwriteDoc findRating
  exact find?_updateFirst _ _ (fun x hx => by simpa using hx) s.ratings

/-- Claim C3: a second rating submission from the same user for the same
resource never creates a second Rating record — the record count is unchanged,
the existing record keeps its `helpfulVotes`, `reports` and `isActive` fields
and only `value`/`feedback` are overwritten — and, with the summary consistent
beforehand, `totalRatings` does not increase (it is unchanged). -/
theorem claim_C3 (s s' : Store) (u : UserId) (resId : ResourceId) (v : Int)
    (fb : Option String) (r0 : Rating) (res res' : Resource)
    (hex : findRating s.ratings u resId = some r0)
    (hres : findResource s.resources resId = some res)
    (hcons : res.totalRatings = (recomputeSummary s.ratings resId).2)
    (hrun : submitRating s u resId v fb = (none, s'))
    (hres2 : findResource s'.resources resId = some res') :
    s'.ratings.length = s.ratings.length ∧
    findRating s'.ratings u resId = some { r0 with rating := v, feedback := fb.getD "" } ∧
    res'.totalRatings = res.totalRatings := by
  have hc := submit_success_consistent hrun hres2
  obtain ⟨res1, heq1, -, -, hpath⟩ := submit_inv hrun
  rcases hpath with ⟨hnone, -⟩ | ⟨-, rfl⟩
  · rw [hnone] at hex
    exact absurd hex (by simp)
  refine ⟨?_, ?_, ?_⟩
  · exact updateFirst_length _ _ s.ratings
  · calc findRating (updatePathResult s u resId v (fb.getD "") res1.author).ratings u resId
        = (findRating s.ratings u resId).map
            (fun r => { r with rating := v, feedback := fb.getD "" }) :=
          findRating_overwriteDoc s u resId v (fb.getD "")
      _ = some { r0 with rating := v, feedback := fb.getD "" } := by rw [hex]; rfl
  · rw [hc.2, hcons, recomputeSummary_snd, recomputeSummary_snd]
    exact activeValues_length_updateFirst
      (fun r => decide (r.user = u ∧ r.resource = resId))
      (fun r => { r with rating := v, feedback := fb.getD "" })
      (fun x => ⟨rfl, rfl⟩) s.ratings resId

/-- The pre-existing rating of 5 by user 2 for resource 1. -/
def ratingOld : Rating :=
  { user := 2, resource := 1, rating := 5, feedback := "good", isHelpful := []
  , helpfulCount := 0, reports := [], isActive := true }

/-- Resource 1 carrying `ratingOld` with a consistent summary. -/
def resourceWithRating : Resource :=
  { id := 1, author := 0, isActive := true, ratings := [⟨2, 5, "good"⟩]
  , averageRating := 5, totalRatings := 1 }

/-- A store in which user 2 has already rated resource 1. -/
def storeWithRating : Store :=
  { ratings := [ratingOld], resources := [resourceWithRating], reputation := fun _ => 0 }

/-- `resourceWithRating` after user 2 re-submits with value 3. -/
def resourceWithRatingAfter : Resource :=
  { id := 1, author := 0, isActive := true, ratings := [⟨2, 3, ""⟩]
  , averageRating := 3, totalRatings := 1 }

/-- Witness for claim C3: user 2 re-rates resource 1 with value 3; no second
record appears and the total stays 1. -/
theorem claim_C3_witness :
    (submitRating storeWithRating 2 1 3 none).2.ratings.length
        = storeWithRating.ratings.length ∧
    findRating (submitRating storeWithRating 2 1 3 none).2.ratings 2 1
        = some { ratingOld with rating := 3, feedback := "" } ∧
    resourceWithRatingAfter.totalRatings = resourceWithRating.totalRatings :=
  claim_C3 storeWithRating (submitRating storeWithRating 2 1 3 none).2 2 1 3 none
    ratingOld resourceWithRating resourceWithRatingAfter rfl rfl (by decide) rfl (by decide)

/-- The helpful-vote toggle never touches the moderation flag. -/
theorem markHelpful_isActive (r : Rating) (u : UserId) :
    (markHelpful r u).isActive = r.isActive := by
  unfold markHelpful
  split <;> rfl

/-- A report never reactivates a hidden rating. -/
theorem reportRating_isActive_of_false (r : Rating) (u : UserId) (reason : Option String)
    (h : r.isActive = false) : (reportRating r u reason).isActive = false := by
  unfold reportRating
  split
  · exact h
  split
  · rfl
  · exact h

/-- No single record-level engine operation reactivates a hidden rating. -/
theorem applyOp_isActive_of_false (r : Rating) (op : RatingOp) (h : r.isActive = false) :
    (applyOp r op).isActive = false := by
  cases op with
  | toggleHelpful voter => rw [applyOp, markHelpful_isActive]; exact h
  | report u reason => exact reportRating_isActive_of_false r u reason h
  | overwrite v fb => exact h

/-- No sequence of record-level engine operations reactivates a hidden
rating. -/
theorem applyOps_isActive_of_false (r : Rating) (ops : List RatingOp)
    (h : r.isActive = false) : (applyOps r ops).isActive = false := by
  induction ops generalizing r with
  | nil => exact h
  | cons op ops ih => exact ih _ (applyOp_isActive_of_false r op h)

/-- Claim C4: starting from a rating with no reports, three distinct reporters
flip `isActive` to false; the hidden state is terminal under every engine
operation (state here is the active/hidden machine state of `isActive`); a
fourth distinct reporter leaves the state hidden; and a repeat report from a
user who already reported leaves the whole record unchanged at any count. -/
theorem claim_C4 (r s : Rating) (ops : List RatingOp) (u1 u2 u3 u4 w : UserId)
    (rs1 rs2 rs3 rs4 rw : Option String)
    (h0 : r.reports = []) (hact : r.isActive = true)
    (h12 : u1 ≠ u2) (h13 : u1 ≠ u3) (h23 : u2 ≠ u3)
    (h41 : u4 ≠ u1) (h42 : u4 ≠ u2) (h43 : u4 ≠ u3) :
    (reportRating (reportRating (reportRating r u1 rs1) u2 rs2) u3 rs3).isActive = false ∧
    (reportRating (reportRating (reportRating (reportRating r u1 rs1) u2 rs2) u3 rs3)
        u4 rs4).isActive = false ∧
    (s.isActive = false → (applyOps s ops).isActive = false) ∧
    (w ∈ s.reports.map Report.user → reportRating s w rw = s) := by
  have hchain :
      (reportRating (reportRating (reportRating r u1 rs1) u2 rs2) u3 rs3).isActive = false := by
    simp [reportRating, h0, Ne.symm h12, Ne.symm h13, Ne.symm h23]
  refine ⟨hchain, ?_, ?_, ?_⟩
  · exact reportRating_isActive_of_false _ u4 rs4 hchain
  · exact fun h => applyOps_isActive_of_false s ops h
  · intro hw
    unfold reportRating
    rw [if_pos hw]

/-- A rating already hidden by three reports, used to witness terminality. -/
def hiddenRating : Rating :=
  { user := 2, resource := 1, rating := 3, feedback := "", isHelpful := []
  , helpfulCount := 0, reports := [⟨10, "x"⟩, ⟨11, "x"⟩, ⟨12, "x"⟩], isActive := false }

/-- Witness for claim C4 on a fresh rating reported by users 1, 2, 3 (then 4)
and on `hiddenRating` for terminality and the repeat-report no-op. -/
theorem claim_C4_witness :
    (reportRating (reportRating (reportRating (mkRating 9 1 4 "") 1 none) 2 none)
        3 none).isActive = false ∧
    (reportRating (reportRating (reportRating (reportRating (mkRating 9 1 4 "") 1 none)
        2 none) 3 none) 4 none).isActive = false ∧
    (hiddenRating.isActive = false →
      (applyOps hiddenRating
        [RatingOp.toggleHelpful 5, RatingOp.report 13 none,
         RatingOp.overwrite 2 ""]).isActive = false) ∧
    (10 ∈ hiddenRating.reports.map Report.user →
      reportRating hiddenRating 10 (some "again") = hiddenRating) :=
  claim_C4 (mkRating 9 1 4 "") hiddenRating
    [RatingOp.toggleHelpful 5, RatingOp.report 13 none, RatingOp.overwrite 2 ""]
    1 2 3 4 10 none none none none (some "again") rfl rfl
    (by decide) (by decide) (by decide) (by decide) (by decide) (by decide)

/-- Claim C5: on a well-formed record (the cached counter equals the vote-set
size, as the data model stipulates), toggling the helpful mark twice with the
same user restores the original `helpfulVotes` membership and the original
`helpfulCount`. -/
theorem claim_C5 (r : Rating) (u : UserId)
    (hcnt : r.helpfulCount = (r.isHelpful.length : Int)) :
    (markHelpful (markHelpful r u) u).helpfulCount = r.helpfulCount ∧
    (∀ x, x ∈ (markHelpful (markHelpful r u) u).isHelpful ↔ x ∈ r.isHelpful) := by
  by_cases hmem : u ∈ r.isHelpful
  · have hlen : 1 ≤ r.isHelpful.length := List.length_pos.mpr (List.ne_nil_of_mem hmem)
    have e1 : markHelpful r u
        = { r with isHelpful := r.isHelpful.filter (fun h => decide (h ≠ u))
                 , helpfulCount := max 0 (r.helpfulCount - 1) } := by
      unfold markHelpful
      rw [if_pos hmem]
    have hnotmem : u ∉ r.isHelpful.filter (fun h => decide (h ≠ u)) := by simp
    have e2 : markHelpful (markHelpful r u) u
        = { r with isHelpful := r.isHelpful.filter (fun h => decide (h ≠ u)) ++ [u]
                 , helpfulCount := max 0 (r.helpfulCount - 1) + 1 } := by
      rw [e1]
      unfold markHelpful
      rw [if_neg hnotmem]
    constructor
    · rw [e2]
      show max 0 (r.helpfulCount - 1) + 1 = r.helpfulCount
      omega
    · intro x
      rw [e2]
      show x ∈ r.isHelpful.filter (fun h => decide (h ≠ u)) ++ [u] ↔ x ∈ r.isHelpful
      simp only [List.mem_append, List.mem_filter, List.mem_singleton, decide_eq_true_eq]
      constructor
      · rintro (⟨hx, -⟩ | rfl)
        exacts [hx, hmem]
      · intro hx
        by_cases hxu : x = u
        · right
          exact hxu
        · left
          exact ⟨hx, hxu⟩
  · have e1 : markHelpful r u
        = { r with isHelpful := r.isHelpful ++ [u]
                 , helpfulCount := r.helpfulCount + 1 } := by
      unfold markHelpful
      rw [if_neg hmem]
    have hmem2 : u ∈ r.isHelpful ++ [u] := by simp
    have e2 : markHelpful (markHelpful r u) u
        = { r with isHelpful := (r.isHelpful ++ [u]).filter (fun h => decide (h ≠ u))
                 , helpfulCount := max 0 (r.helpfulCount + 1 - 1) } := by
      rw [e1]
      unfold markHelpful
      rw [if_pos hmem2]
    have hfilter : (r.isHelpful ++ [u]).filter (fun h => decide (h ≠ u)) = r.isHelpful := by
      rw [List.filter_append]
      have h1 : r.isHelpful.filter (fun h => decide (h ≠ u)) = r.isHelpful :=
        List.filter_eq_self.mpr (fun a ha => by
          simp only [decide_eq_true_eq]
          exact fun e => hmem (e ▸ ha))
      have h2 : ([u] : List UserId).filter (fun h => decide (h ≠ u)) = [] := by simp
      rw [h1, h2, List.append_nil]
    constructor
    · rw [e2]
      show max 0 (r.helpfulCount + 1 - 1) = r.helpfulCount
      omega
    · intro x
      rw [e2]
      show x ∈ (r.isHelpful ++ [u]).filter (fun h => decide (h ≠ u)) ↔ x ∈ r.isHelpful
      rw [hfilter]

/-- Witness for claim C5: toggling user 7 twice on a record where user 7 has
already voted restores membership and count. -/
theorem claim_C5_witness :
    (markHelpful (markHelpful
        { user := 2, resource := 1, rating := 5, feedback := "", isHelpful := [7]
        , helpfulCount := 1, reports := [], isActive := true } 7) 7).helpfulCount
      = ({ user := 2, resource := 1, rating := 5, feedback := "", isHelpful := [7]
         , helpfulCount := 1, reports := [], isActive := true } : Rating).helpfulCount ∧
    (∀ x, x ∈ (markHelpful (markHelpful
        { user := 2, resource := 1, rating := 5, feedback := "", isHelpful := [7]
        , helpfulCount := 1, reports := [], isActive := true } 7) 7).isHelpful ↔
      x ∈ ({ user := 2, resource := 1, rating := 5, feedback := "", isHelpful := [7]
           , helpfulCount := 1, reports := [], isActive := true } : Rating).isHelpful) :=
  claim_C5
    { user := 2, resource := 1, rating := 5, feedback := "", isHelpful := [7]
    , helpfulCount := 1, reports := [], isActive := true } 7 (by decide)

/-- The data-model invariant on the helpful-vote bookkeeping: the cached
counter equals the vote-set size and no voter appears twice. -/
def HelpfulWf (r : Rating) : Prop :=
  r.helpfulCount = (r.isHelpful.length : Int) ∧ r.isHelpful.Nodup

/-- Removing a present element from a duplicate-free list shortens it by
exactly one. -/
theorem length_filter_ne_of_nodup {l : List UserId} {u : UserId}
    (hnd : l.Nodup) (hmem : u ∈ l) :
    (l.filter (fun h => decide (h ≠ u))).length + 1 = l.length := by
  induction l with
  | nil => cases hmem
  | cons a l ih =>
    rw [List.nodup_cons] at hnd
    by_cases hau : a = u
    · subst hau
      have hkeep : l.filter (fun h => decide (h ≠ a)) = l :=
        List.filter_eq_self.mpr (fun b hb => by
          simp only [decide_eq_true_eq]
          exact fun e => hnd.1 (e ▸ hb))
      rw [List.filter_cons_of_neg (by simp), hkeep, List.length_cons]
    · have hum : u ∈ l := by
        rcases List.mem_cons.mp hmem with h | h
        · exact absurd h.symm hau
        · exact h
      rw [List.filter_cons_of_pos (by simpa using hau)]
      have := ih hnd.2 hum
      simp only [List.length_cons]
      omega

/-- The helpful-vote toggle preserves the bookkeeping invariant. -/
theorem helpfulWf_markHelpful (r : Rating) (u : UserId) (h : HelpfulWf r) :
    HelpfulWf (markHelpful r u) := by
  obtain ⟨hcnt, hnd⟩ := h
  by_cases hmem : u ∈ r.isHelpful
  · unfold markHelpful
    rw [if_pos hmem]
    constructor
    · show max 0 (r.helpfulCount - 1)
          = ((r.isHelpful.filter (fun h => decide (h ≠ u))).length : Int)
      have := length_filter_ne_of_nodup hnd hmem
      omega
    · exact hnd.filter _
  · unfold markHelpful
    rw [if_neg hmem]
    constructor
    · show r.helpfulCount + 1 = ((r.isHelpful ++ [u]).length : Int)
      rw [List.length_append]
      simp [hcnt]
    · show (r.isHelpful ++ [u]).Nodup
      simp [List.nodup_append, hnd, hmem]

/-- A report touches neither the vote set nor the counter. -/
theorem helpfulWf_reportRating (r : Rating) (u : UserId) (reason : Option String)
    (h : HelpfulWf r) : HelpfulWf (reportRating r u reason) := by
  unfold reportRating
  split
  · exact h
  split
  · exact h
  · exact h

/-- Every record-level engine operation preserves the bookkeeping invariant. -/
theorem helpfulWf_applyOp (r : Rating) (op : RatingOp) (h : HelpfulWf r) :
    HelpfulWf (applyOp r op) := by
  cases op with
  | toggleHelpful voter => exact helpfulWf_markHelpful r voter h
  | report u reason => exact helpfulWf_reportRating r u reason h
  | overwrite v fb => exact h

/-- Every sequence of record-level engine operations preserves the
bookkeeping invariant. -/
theorem helpfulWf_applyOps (r : Rating) (ops : List RatingOp) (h : HelpfulWf r) :
    HelpfulWf (applyOps r ops) := by
  induction ops generalizing r with
  | nil => exact h
  | cons op ops ih => exact ih _ (helpfulWf_applyOp r op h)

/-- Claim C6: on every record reachable from a freshly created Rating by any
sequence of record-level engine operations, `helpfulCount` equals the number
of entries of the helpful-vote set, and in particular never drops below 0. -/
theorem claim_C6 (u : UserId) (res : ResourceId) (v : Int) (fb : String)
    (ops : List RatingOp) :
    (applyOps (mkRating u res v fb) ops).helpfulCount
        = ((applyOps (mkRating u res v fb) ops).isHelpful.length : Int) ∧
    0 ≤ (applyOps (mkRating u res v fb) ops).helpfulCount := by
  have h := helpfulWf_applyOps (mkRating u res v fb) ops ⟨rfl, List.nodup_nil⟩
  refine ⟨h.1, ?_⟩
  rw [h.1]
  exact Int.natCast_nonneg _

/-- Counterexample to claim C7: the submitted value 0 lies outside [1,5] but
trips the router's JS truthiness check `!rating` first, so the rejection is
the missing-fields error, not `InvalidValue`. -/
theorem claim_C7_counterexample :
    ((0 : Int) < 1 ∨ 5 < (0 : Int)) ∧
    (submitRating sampleStore 2 1 0 none).1 = some SubmitError.missingFields ∧
    some SubmitError.missingFields ≠ some SubmitError.invalidValue := by
  refine ⟨by decide, rfl, by decide⟩

/-- Claim C7 (amended): every submission with a value outside [1,5] is
rejected before any persistence, with the store returned unchanged — no
Rating record created or modified and no summary touched; a nonzero
out-of-range value fails with `InvalidValue`, while the value 0 trips the
required-fields truthiness check and fails with the missing-fields error. -/
theorem claim_C7_amended (s : Store) (u : UserId) (resId : ResourceId) (v : Int)
    (fb : Option String) (hv : v < 1 ∨ 5 < v) :
    (v ≠ 0 → submitRating s u resId v fb = (some SubmitError.invalidValue, s)) ∧
    (v = 0 → submitRating s u resId v fb = (some SubmitError.missingFields, s)) := by
  constructor
  · intro hvz
    unfold submitRating
    rw [if_neg hvz, if_pos hv]
  · intro hvz
    unfold submitRating
    rw [if_pos hvz]

/-- Witness for claim C7 (amended) at the out-of-range value 7. -/
theorem claim_C7_witness :
    ((7 : Int) ≠ 0 →
      submitRating sampleStore 2 1 7 none = (some SubmitError.invalidValue, sampleStore)) ∧
    ((7 : Int) = 0 →
      submitRating sampleStore 2 1 7 none = (some SubmitError.missingFields, sampleStore)) :=
  claim_C7_amended sampleStore 2 1 7 none (by decide)

/-- The per-request state of one in-flight first-time rating submission: its
program counter and the value snapshot it read for the summary write. -/
structure Thread where
  user : UserId
  value : Int
  pc : Nat
  snap : List Int
deriving Repr

/-- One atomic step of the create path of `router.post('/')`, cut at the
await boundaries of the code: pc 0 is `ratingDoc.save()`, pc 1 the `$push`
into the embedded array, pc 2 the `Resource.findById` read feeding
`calculateAverageRating` (here: the snapshot of the current active values),
pc 3 the summary write that `calculateAverageRating` persists, computed from
that snapshot.  The `Rating.findOne` returning null and the two reputation
`$inc`s do not touch the observables of the scenario and are elided. -/
def stepThread (resId : ResourceId) (s : Store) (t : Thread) : Store × Thread :=
  match t.pc with
  | 0 => ({ s with ratings := s.ratings ++ [mkRating t.user resId t.value ""] }
         , { t with pc := 1 })
  | 1 => ({ s with resources :=
            (updateFirst (fun r => decide (r.id = resId))
              (fun r => { r with ratings := r.ratings ++ [⟨t.user, t.value, ""⟩] })
              s.resources) }
         , { t with pc := 2 })
  | 2 => (s, { t with pc := 3, snap := activeValues s.ratings resId })
  | 3 => ({ s with resources :=
            (updateFirst (fun r => decide (r.id = resId))
              (fun r => { r with averageRating := (summaryOfValues t.snap).1
                               , totalRatings := (summaryOfValues t.snap).2 })
              s.resources) }
         , { t with pc := 4 })
  | _ => (s, t)

/-- Two concurrent submissions against a shared store. -/
structure Sys where
  store : Store
  tA : Thread
  tB : Thread

/-- Run one scheduled step: `true` steps the first submission, `false` the
second. -/
def schedStep (resId : ResourceId) (sys : Sys) (b : Bool) : Sys :=
  if b then
    let p := stepThread resId sys.store sys.tA
    { sys with store := p.1, tA := p.2 }
  else
    let p := stepThread resId sys.store sys.tB
    { sys with store := p.1, tB := p.2 }

/-- Run a whole schedule. -/
def runSched (resId : ResourceId) (sys : Sys) : List Bool → Sys
  | [] => sys
  | b :: rest => runSched resId (schedStep resId sys b) rest

/-- Users 2 and 3 submit values 2 and 4 for resource 1 against the empty
rating set. -/
def sysC8 : Sys :=
  { store := sampleStore
  , tA := { user := 2, value := 2, pc := 0, snap := [] }
  , tB := { user := 3, value := 4, pc := 0, snap := [] } }

/-- Claim C8, evaluated at the failing schedule: when the two submissions run
back to back the summary ends at average 3.0 and total 2, as the claim
expects; but the router serializes nothing, and under the schedule in which
both requests read their snapshots before the first one performs the last
summary write, the final state is average 2.0 and total 1 — the lost update
the claim says is never possible — even though both Rating documents exist
(the active set has 2 elements). -/
theorem claim_C8 :
    ((findResource (runSched 1 sysC8
          [true, true, true, true, false, false, false, false]).store.resources 1).map
        (fun r => (r.averageRating, r.totalRatings)) = some (3, 2)) ∧
    ((findResource (runSched 1 sysC8
          [true, true, true, false, false, false, false, true]).store.resources 1).map
        (fun r => (r.averageRating, r.totalRatings)) = some (2, 1)) ∧
    (activeValues (runSched 1 sysC8
          [true, true, true, false, false, false, false, true]).store.ratings 1).length = 2 := by
  refine ⟨by decide, by decide, by decide⟩

/-- Creating the first rating of a user for a resource makes it findable with
the schema defaults. -/
theorem findRating_createDoc (s : Store) (u : UserId) (resId : ResourceId) (v : Int)
    (fb : String) (h : findRating s.ratings u resId = none) :
    findRating (createDoc s u resId v fb).ratings u resId
      = some (mkRating u resId v fb) := by
  unfold findRating at h ⊢
  show ((s.ratings ++ [mkRating u resId v fb]).find?
      (fun r => decide (r.user = u ∧ r.resource = resId))) = _
  rw [find?_append_of_none _ h]
  have h2 : (fun r => decide (r.user = u ∧ r.resource = resId)) (mkRating u resId v fb)
      = true := by
    simp [mkRating]
  exact List.find?_cons_of_pos _ h2

/-- The positional embedded update rewrites exactly the first entry of the
user. -/
theorem find?_setEmbedded (l : List EmbeddedRating) (u : UserId) (v : Int) (fb : String) :
    (setEmbedded u v fb l).find? (fun e => decide (e.user = u))
      = (l.find? (fun e => decide (e.user = u))).map
          (fun e => { e with rating := v, feedback := fb }) := by
  unfold setEmbedded
  exact find?_updateFirst _ _ (fun x hx => by simpa using hx) l

/-- Claim C9: every upsert writes both representations — the Rating document
and the entry embedded in the resource's own `ratings` array — and when the
two representations agree on membership beforehand, they hold the same
`(user, value, feedback)` data for the pair afterwards. -/
theorem claim_C9 (s s' : Store) (u : UserId) (resId : ResourceId) (v : Int)
    (fb : Option String) (res res' : Resource)
    (hres : findResource s.resources resId = some res)
    (hsync : (findRating s.ratings u resId).isSome
        = (res.ratings.find? (fun e => decide (e.user = u))).isSome)
    (hrun : submitRating s u resId v fb = (none, s'))
    (hres2 : findResource s'.resources resId = some res') :
    (findRating s'.ratings u resId).map (fun r => (r.user, r.rating, r.feedback))
        = some (u, v, fb.getD "") ∧
    (res'.ratings.find? (fun e => decide (e.user = u))).map
        (fun e => (e.user, e.rating, e.feedback)) = some (u, v, fb.getD "") := by
  obtain ⟨res1, heq1, -, -, hpath⟩ := submit_inv hrun
  rw [hres] at heq1
  have hres1 := Option.some.inj heq1
  subst hres1
  rcases hpath with ⟨hnone, rfl⟩ | ⟨hsome, rfl⟩
  · constructor
    · show (findRating (createDoc s u resId v (fb.getD "")).ratings u resId).map
          (fun r => (r.user, r.rating, r.feedback)) = some (u, v, fb.getD "")
      rw [findRating_createDoc s u resId v _ hnone]
      rfl
    · unfold createPathResult at hres2
      rw [awardAuthor_resources, findResource_writeSummary,
        findResource_pushEmbeddedOnResource,
        show (createDoc s u resId v (fb.getD "")).resources = s.resources from rfl,
        hres] at hres2
      simp only [Option.map_some'] at hres2
      have h3 := Option.some.inj hres2
      rw [← h3]
      show ((res.ratings ++ [EmbeddedRating.mk u v (fb.getD "")]).find?
          (fun e => decide (e.user = u))).map
          (fun e => (e.user, e.rating, e.feedback)) = some (u, v, fb.getD "")
      have hembnone : res.ratings.find? (fun e => decide (e.user = u)) = none := by
        rw [hnone] at hsync
        cases hfind : res.ratings.find? (fun e => decide (e.user = u)) with
        | none => rfl
        | some e =>
          rw [hfind] at hsync
          simp at hsync
      have h4 : (([EmbeddedRating.mk u v (fb.getD "")] : List EmbeddedRating).find?
          (fun e => decide (e.user = u))) = some (EmbeddedRating.mk u v (fb.getD "")) :=
        List.find?_cons_of_pos _ (by simp)
      rw [find?_append_of_none _ hembnone, h4]
      rfl
  · obtain ⟨r0, hr0⟩ := Option.isSome_iff_exists.mp hsome
    constructor
    · show (findRating (overwriteDoc s u resId v (fb.getD "")).ratings u resId).map
          (fun r => (r.user, r.rating, r.feedback)) = some (u, v, fb.getD "")
      rw [findRating_overwriteDoc, hr0]
      have huser : r0.user = u := by
        have hp := List.find?_some hr0
        simp only [decide_eq_true_eq] at hp
        exact hp.1
      simp [huser]
    · unfold updatePathResult at hres2
      rw [awardAuthor_resources, findResource_writeSummary,
        findResource_setEmbeddedOnResource, overwriteDoc_resources, hres] at hres2
      simp only [Option.map_some'] at hres2
      have h3 := Option.some.inj hres2
      rw [← h3]
      show ((setEmbedded u v (fb.getD "") res.ratings).find?
          (fun e => decide (e.user = u))).map
            (fun e => (e.user, e.rating, e.feedback)) = some (u, v, fb.getD "")
      have hembsome : (res.ratings.find? (fun e => decide (e.user = u))).isSome = true := by
        rw [← hsync, hr0]
        rfl
      obtain ⟨e0, he0⟩ := Option.isSome_iff_exists.mp hembsome
      rw [find?_setEmbedded, he0]
      have huser : e0.user = u := by
        have hp := List.find?_some he0
        simpa using hp
      simp [huser]

/-- Witness for claim C9 at the concrete first-submission scenario: both the
Rating document and the embedded entry read `(2, 4, "")` afterwards. -/
theorem claim_C9_witness :
    (findRating (submitRating sampleStore 2 1 4 none).2.ratings 2 1).map
        (fun r => (r.user, r.rating, r.feedback)) = some (2, 4, "") ∧
    (sampleResourceAfter.ratings.find? (fun e => decide (e.user = 2))).map
        (fun e => (e.user, e.rating, e.feedback)) = some (2, 4, "") :=
  claim_C9 sampleStore (submitRating sampleStore 2 1 4 none).2 2 1 4 none
    sampleResource sampleResourceAfter rfl rfl rfl rfl

/-- Claim C10: a successful submission also mutates user reputations — on a
create the rater gains 2, and on every successful submission (create or
update) the resource author gains 3 when the value exceeds 3 and 1
otherwise; on an update the rater's reputation is untouched. -/
theorem claim_C10 (s s' : Store) (u : UserId) (resId : ResourceId) (v : Int)
    (fb : Option String) (res : Resource)
    (hres : findResource s.resources resId = some res)
    (hrun : submitRating s u resId v fb = (none, s')) :
    (findRating s.ratings u resId = none →
      s'.reputation u = s.reputation u + 2 ∧
      s'.reputation res.author
        = s.reputation res.author + (if 3 < v then 3 else 1)) ∧
    ((findRating s.ratings u resId).isSome = true →
      s'.reputation u = s.reputation u ∧
      s'.reputation res.author
        = s.reputation res.author + (if 3 < v then 3 else 1)) := by
  obtain ⟨res1, heq1, -, hauth, hpath⟩ := submit_inv hrun
  rw [hres] at heq1
  have e := Option.some.inj heq1
  subst e
  have hau : u ≠ res.author := fun e2 => hauth e2.symm
  rcases hpath with ⟨hnone, rfl⟩ | ⟨hsome, rfl⟩
  · constructor
    · intro _
      constructor
      · simp [createPathResult, awardAuthor, writeSummary, pushEmbeddedOnResource,
          createDoc, hau]
      · simp [createPathResult, awardAuthor, writeSummary, pushEmbeddedOnResource,
          createDoc, hauth]
    · intro hs
      rw [hnone] at hs
      simp at hs
  · constructor
    · intro hn
      rw [hn] at hsome
      simp at hsome
    · intro _
      constructor
      · simp [updatePathResult, awardAuthor, writeSummary, setEmbeddedOnResource,
          overwriteDoc, hau]
      · simp [updatePathResult, awardAuthor, writeSummary, setEmbeddedOnResource,
          overwriteDoc, hauth]

/-- Witness for claim C10 at the concrete first-submission scenario: the
rater (user 2) gains 2 and the author (user 0) gains 3 for the value 4. -/
theorem claim_C10_witness :
    (findRating sampleStore.ratings 2 1 = none →
      (submitRating sampleStore 2 1 4 none).2.reputation 2
          = sampleStore.reputation 2 + 2 ∧
      (submitRating sampleStore 2 1 4 none).2.reputation sampleResource.author
          = sampleStore.reputation sampleResource.author
              + (if 3 < (4 : Int) then 3 else 1)) ∧
    ((findRating sampleStore.ratings 2 1).isSome = true →
      (submitRating sampleStore 2 1 4 none).2.reputation 2
          = sampleStore.reputation 2 ∧
      (submitRating sampleStore 2 1 4 none).2.reputation sampleResource.author
          = sampleStore.reputation sampleResource.author
              + (if 3 < (4 : Int) then 3 else 1)) :=
  claim_C10 sampleStore (submitRating sampleStore 2 1 4 none).2 2 1 4 none
    sampleResource rfl rfl

end RatingEngine
